import Mathlib

/-!
Verification of the glue-prompt prompt-asset manager.

This file shallowly embeds the parts of the Python source needed by the
claims under study: the data model (`glueprompt/models/prompt.py`), the
template renderer (`glueprompt/renderer.py`), the YAML prompt loader with
its TTL cache and path-traversal guard (`glueprompt/loader.py`), the CLI's
semantic-version bump (`glueprompt/cli/commands.py`), the repository
manager's URL-to-name derivation (`glueprompt/repo_manager.py`), the
validator (`glueprompt/validator.py`), the differ (`glueprompt/differ.py`)
and the HTTP render route's error mapping (`glueprompt/server/app.py`).

Python dictionaries are embedded as insertion-ordered association lists;
Python's dynamically typed values as the inductive `PyVal` (whose `vNone`
constructor is Python's `None`); machine time as `Nat` timestamps passed
explicitly; the filesystem and `Path.resolve` as explicit oracles.
-/

namespace GluePrompt

/-- A Python runtime value, as used for variable defaults and
caller-supplied variables.  `vNone` is Python's `None`; the other
constructors stand in for the arbitrary (`Any`-typed) data Python allows
here. -/
inductive PyVal : Type where
  | vNone : PyVal
  | vStr : String → PyVal
  | vInt : Int → PyVal
  | vBool : Bool → PyVal
  deriving Repr, DecidableEq

/-- `models/prompt.py` `VariableDefinition`: pydantic model with fields
`type` (default `"string"`), `required` (default `True`),
`default` (type `Any`, default `None`) and `description` (default `""`).
The Python field `default` has no `Option`: the value `None` (here
`PyVal.vNone`) is both the pydantic default and the parse of YAML `null`. -/
structure VariableDefinition : Type where
  type : String := "string"
  required : Bool := true
  default : PyVal := PyVal.vNone
  description : String := ""
  deriving Repr, DecidableEq

/-- `models/prompt.py` `PromptMetadata`. -/
structure PromptMetadata : Type where
  name : String
  version : String := "1.0.0"
  description : String := ""
  author : String := ""
  tags : List String := []
  deriving Repr, DecidableEq

/-- `models/prompt.py` `Prompt`.  The Python `variables` dict is embedded
as the insertion-ordered association list `vars` (the source field name
`variables` is a reserved token in Lean); faithfulness to a Python dict
additionally means the keys are pairwise distinct, which theorems take as
the hypothesis `Prompt.KeysNodup` where they need it. -/
structure Prompt : Type where
  metadata : PromptMetadata
  template : String
  vars : List (String × VariableDefinition) := []
  deriving Repr, DecidableEq

/-- The keys of the `variables` dict are pairwise distinct (always true of
a Python dict). -/
def Prompt.KeysNodup (p : Prompt) : Prop :=
  (p.vars.map Prod.fst).Nodup

instance (p : Prompt) : Decidable p.KeysNodup := by
  unfold Prompt.KeysNodup; infer_instance

/-- `Prompt.get_required_variables`: the names of all entries with
`required = true`, in dict insertion order. -/
def Prompt.get_required_variables (p : Prompt) : List String :=
  (p.vars.filter (fun nv => nv.2.required)).map Prod.fst

/-- `Prompt.get_variable_defaults`: every entry with `required = false`
and `default is not None`, mapped to its default value, in insertion
order. -/
def Prompt.get_variable_defaults (p : Prompt) : List (String × PyVal) :=
  (p.vars.filter
      (fun nv => !nv.2.required && !(nv.2.default == PyVal.vNone))).map
    (fun nv => (nv.1, nv.2.default))

/-- The error taxonomy of `glueprompt/exceptions.py`; each kind carries a
human-readable message only. -/
inductive GluePromptError : Type where
  | promptNotFound : String → GluePromptError
  | promptValidation : String → GluePromptError
  | versionErr : String → GluePromptError
  | gitOperation : String → GluePromptError
  | templateRender : String → GluePromptError
  deriving Repr, DecidableEq

/-- Python's `", ".join`. -/
def commaJoin (xs : List String) : String :=
  String.intercalate ", " xs

/-- Membership of a key in a Python dict (`var not in merged_vars` tests
keys). -/
def dictHasKey (d : List (String × PyVal)) (k : String) : Bool :=
  d.any (fun kv => kv.1 == k)

/-- Python `dict.update` for one key/value pair: replace the value in
place when the key is present (keeping its position), append otherwise. -/
def dictSet (d : List (String × PyVal)) (k : String) (v : PyVal) :
    List (String × PyVal) :=
  if dictHasKey d k then
    d.map (fun kv => if kv.1 == k then (k, v) else kv)
  else
    d ++ [(k, v)]

/-- Python `merged.update(variables)`: fold `dictSet` over the supplied
pairs in order. -/
def dictUpdate (d vs : List (String × PyVal)) : List (String × PyVal) :=
  vs.foldl (fun acc kv => dictSet acc kv.1 kv.2) d

/-- `TemplateRenderer.render` from `renderer.py`.  Jinja2 evaluation of
the template body (`env.from_string(...).render(**merged_vars)` together
with the exception-to-`TemplateRenderError` re-signalling that wraps it)
is an external-library boundary, abstracted as the oracle `evalT` mapping
the merged variable dict to either a rendered string or a
`TemplateRenderError`.  Everything before that call — the default/caller
merge and the required-variable check — is translated directly. -/
def render (evalT : List (String × PyVal) → Except GluePromptError String)
    (p : Prompt) (supplied : List (String × PyVal)) :
    Except GluePromptError String :=
  let merged_vars := dictUpdate (p.get_variable_defaults) supplied
  let required := p.get_required_variables
  let missing := required.filter (fun v => !dictHasKey merged_vars v)
  if missing.isEmpty then
    evalT merged_vars
  else
    Except.error (GluePromptError.templateRender
      ("Missing required variables: " ++ commaJoin missing))

/-! ### Python string primitives used by the embedded code -/

/-- Python `int(s)` on a string, simplified to ASCII: optional surrounding
whitespace, an optional sign, then a non-empty run of decimal digits.
(Python additionally accepts digit-group underscores and Unicode digits;
no claim depends on those inputs.)  `none` models `ValueError`. -/
def pyInt? (s : String) : Option Int :=
  let cs := (s.toList.dropWhile (·.isWhitespace)).reverse.dropWhile
    (·.isWhitespace) |>.reverse
  let core : Option (Bool × List Char) :=
    match cs with
    | '-' :: rest => some (true, rest)
    | '+' :: rest => some (false, rest)
    | rest => some (false, rest)
  match core with
  | some (neg, ds) =>
    if ds.isEmpty || !ds.all (·.isDigit) then none
    else
      let n : Nat := ds.foldl (fun acc c => acc * 10 + (c.toNat - '0'.toNat)) 0
      some (if neg then -(n : Int) else (n : Int))
  | none => none

/-- Python `s.split(sep)` for a one-character separator, on `List Char`:
`"a.b".split(".") = ["a", "b"]`, `"".split(".") = [""]`,
`".a.".split(".") = ["", "a", ""]`. -/
def splitOnChar (sep : Char) : List Char → List (List Char)
  | [] => [[]]
  | c :: rest =>
    let r := splitOnChar sep rest
    if c == sep then [] :: r
    else
      match r with
      | h :: t => (c :: h) :: t
      | [] => [[c]]

/-- Python `s.split(sep)` for a one-character separator. -/
def pySplit (s : String) (sep : Char) : List String :=
  (splitOnChar sep s.toList).map String.mk

/-- Python `s.lower()`, restricted to ASCII (all messages at issue are
ASCII). -/
def pyLower (s : String) : String :=
  String.mk (s.toList.map Char.toLower)

/-- Python `s.rstrip(chars)`: remove from the right every character that
is a member of `chars` (a character set, not a suffix). -/
def pyRstrip (s : String) (chars : String) : String :=
  String.mk ((s.toList.reverse.dropWhile (fun c => chars.toList.contains c)).reverse)

/-- Python `needle in hay` on `List Char`. -/
def listContainsSub [BEq α] : List α → List α → Bool
  | [], needle => needle.isEmpty
  | hay@(_ :: t), needle => needle.isPrefixOf hay || listContainsSub t needle

/-- Python `needle in hay` on strings (substring containment). -/
def containsSub (hay needle : String) : Bool :=
  listContainsSub hay.toList needle.toList

/-! ### CLI semantic-version bump (`cli/commands.py` `bump_version`) -/

/-- `bump_version` from `cli/commands.py`.  `parts = version.split(".")`;
only a part count other than three triggers the `["1", "0", "0"]`
fallback; each of the three parts then goes through `int(...)`, whose
`ValueError` on a non-integer part propagates out of the function
(modelled as `none`). -/
def bump_version (version : String) (bump_type : String := "patch") :
    Option String :=
  let parts := pySplit version '.'
  let parts := if parts.length != 3 then ["1", "0", "0"] else parts
  match parts with
  | [p0, p1, p2] =>
    match pyInt? p0, pyInt? p1, pyInt? p2 with
    | some major, some minor, some patch =>
      if bump_type == "major" then
        some (toString (major + 1) ++ ".0.0")
      else if bump_type == "minor" then
        some (toString major ++ "." ++ toString (minor + 1) ++ ".0")
      else
        some (toString major ++ "." ++ toString minor ++ "." ++
          toString (patch + 1))
    | _, _, _ => none
  | _ => none

/-! ### Repository-name derivation (`repo_manager.py` `url_to_repo_name`) -/

/-- `url_to_repo_name` from `repo_manager.py`:
`url.rstrip("/").rstrip(".git").split("/")[-1]`.  Note `rstrip(".git")`
strips trailing characters drawn from the set `{'.', 'g', 'i', 't'}`, not
the literal suffix `".git"`. -/
def url_to_repo_name (url : String) : String :=
  (pySplit (pyRstrip (pyRstrip url "/") ".git") '/').getLastD ""

/-! ### Prompt loader (`loader.py`) -/

/-- `str(Path(a) / b)` for the path shapes the loader builds (no absolute
`b`, no trailing separators). -/
def joinPath (a b : String) : String := a ++ "/" ++ b

/-- Python `Path.is_relative_to` on two already-resolved paths: the
root's `/`-separated components are a prefix of the child's. -/
def isRelativeTo (child root : String) : Bool :=
  (pySplit root '/').isPrefixOf (pySplit child '/')

/-- `PromptLoader._validate_prompt_path`.  `Path.resolve` is an OS
boundary, abstracted as the oracle `resolveO` mapping a path to its
canonical form or to the message of the `OSError`/`ValueError` it raises;
the body then mirrors the source: resolve the prompts directory, resolve
the candidate, require `is_relative_to`, and turn a resolution failure
into `PromptValidationError` carrying the underlying error text. -/
def validatePromptPath (resolveO : String → Except String String)
    (prompts_dir : String) (resolved_path : String) :
    Except GluePromptError Unit :=
  match resolveO prompts_dir with
  | Except.error e =>
    Except.error (GluePromptError.promptValidation ("Invalid prompt path: " ++ e))
  | Except.ok resolved_prompts_dir =>
    match resolveO resolved_path with
    | Except.error e =>
      Except.error (GluePromptError.promptValidation ("Invalid prompt path: " ++ e))
    | Except.ok resolved_file =>
      if isRelativeTo resolved_file resolved_prompts_dir then Except.ok ()
      else
        Except.error (GluePromptError.promptValidation
          "Invalid prompt path: path escapes prompts directory")

/-- `PromptLoader._resolve_prompt_file`: try `{root}/{p}.yaml`, then
`{root}/{p}.yml`, then `{root}/{p}/index.yaml`, validating the first
existing candidate against path traversal; when none exists, fail with
`PromptNotFoundError` naming all three attempted paths.  `pathExists`
abstracts `Path.exists`. -/
def resolvePromptFile (pathExists : String → Bool)
    (resolveO : String → Except String String)
    (prompts_dir : String) (prompt_path : String) :
    Except GluePromptError String :=
  let yaml_path := joinPath prompts_dir (prompt_path ++ ".yaml")
  let yml_path := joinPath prompts_dir (prompt_path ++ ".yml")
  let index_path := joinPath (joinPath prompts_dir prompt_path) "index.yaml"
  if pathExists yaml_path then
    do _ ← validatePromptPath resolveO prompts_dir yaml_path
       pure yaml_path
  else if pathExists yml_path then
    do _ ← validatePromptPath resolveO prompts_dir yml_path
       pure yml_path
  else if pathExists index_path then
    do _ ← validatePromptPath resolveO prompts_dir index_path
       pure index_path
  else
    Except.error (GluePromptError.promptNotFound
      ("Prompt not found: " ++ prompt_path ++ ". Tried: " ++ yaml_path ++
        ", " ++ yml_path ++ ", " ++ index_path))

/-- Generic insertion-ordered association-list update (Python
`d[k] = v`). -/
def alistSet (d : List (String × α)) (k : String) (v : α) :
    List (String × α) :=
  if d.any (fun kv => kv.1 == k) then
    d.map (fun kv => if kv.1 == k then (k, v) else kv)
  else
    d ++ [(k, v)]

/-- Loader construction parameters (`PromptLoader.__init__`). -/
structure LoaderCfg : Type where
  prompts_dir : String
  cache_enabled : Bool := true
  cache_ttl : Nat := 300

/-- A loaded `Prompt` object together with its Python object identity:
each parse of a file allocates a fresh object, modelled by a fresh
`objId` drawn from a counter in the loader state. -/
structure PromptObj : Type where
  objId : Nat
  val : Prompt
  deriving Repr, DecidableEq

/-- The loader's mutable state: the TTL cache
(`dict[str, tuple[Prompt, float]]`, keyed by `str(prompts_dir / path)`)
plus the allocation counter that models object identity. -/
structure LoaderState : Type where
  cache : List (String × (PromptObj × Nat)) := []
  counter : Nat := 0
  deriving Repr, DecidableEq

/-- The filesystem as seen by one loader: existence probes, `resolve`,
and the read-open-parse pipeline of `PromptLoader.load` (the `open` +
`yaml.safe_load` + mapping check + `_parse_yaml` sequence), which for one
unchanged file deterministically yields either a `Prompt` value or a
load error. -/
structure FsOracle : Type where
  pathExists : String → Bool
  resolveO : String → Except String String
  readParse : String → Except GluePromptError Prompt

/-- `PromptLoader._get_cache_key`. -/
def getCacheKey (cfg : LoaderCfg) (prompt_path : String) : String :=
  joinPath cfg.prompts_dir prompt_path

/-- `PromptLoader._is_cache_valid`:
`cache_enabled && (time.time() - timestamp) < cache_ttl`. -/
def isCacheValid (cfg : LoaderCfg) (now timestamp : Nat) : Bool :=
  if !cfg.cache_enabled then false else (now - timestamp) < cfg.cache_ttl

/-- The cache-miss path of `PromptLoader.load`: resolve the file, read
and parse it (allocating a fresh object), and — if caching is enabled —
replace the cache entry under the extension-free key with a fresh
timestamp. -/
def loadFromFile (fs : FsOracle) (cfg : LoaderCfg) (st : LoaderState)
    (cache_key prompt_path : String) (now : Nat) :
    Except GluePromptError (PromptObj × LoaderState) := do
  let prompt_file ←
    resolvePromptFile fs.pathExists fs.resolveO cfg.prompts_dir prompt_path
  let pv ← fs.readParse prompt_file
  let obj : PromptObj := ⟨st.counter, pv⟩
  let newCache :=
    if cfg.cache_enabled then alistSet st.cache cache_key (obj, now)
    else st.cache
  pure (obj, ⟨newCache, st.counter + 1⟩)

/-- `PromptLoader.load`: return the cached object directly on a fresh
cache hit (`use_cache` and `cache_enabled` and present and unexpired),
otherwise fall through to `loadFromFile`.  `now` is the value of
`time.time()` during this call. -/
def load (fs : FsOracle) (cfg : LoaderCfg) (st : LoaderState)
    (prompt_path : String) (use_cache : Bool) (now : Nat) :
    Except GluePromptError (PromptObj × LoaderState) :=
  let cache_key := getCacheKey cfg prompt_path
  match (if use_cache && cfg.cache_enabled then st.cache.lookup cache_key
         else none) with
  | some (cached_prompt, timestamp) =>
    if isCacheValid cfg now timestamp then Except.ok (cached_prompt, st)
    else loadFromFile fs cfg st cache_key prompt_path now
  | none => loadFromFile fs cfg st cache_key prompt_path now

/-- `PromptLoader.clear_cache`. -/
def clearCache (st : LoaderState) : LoaderState :=
  { st with cache := [] }

/-! ### HTTP render-route error mapping (`server/app.py` `render_prompt`) -/

/-- The `except Exception` arm of the server's render route: 404 when the
lower-cased message contains `"not found"`, else 400 when it contains
`"missing required"` or `"template"`, else 500 with the message embedded
in the detail.  Returns (status code, response detail). -/
def mapRenderError (error_msg : String) : Nat × String :=
  if containsSub (pyLower error_msg) "not found" then
    (404, error_msg)
  else if containsSub (pyLower error_msg) "missing required" ||
      containsSub (pyLower error_msg) "template" then
    (400, error_msg)
  else
    (500, "Internal server error: " ++ error_msg)

/-! ### Validator (`validator.py`) -/

/-- `[a-zA-Z_]`, the start of a regex identifier. -/
def isIdentStart (c : Char) : Bool := c.isAlpha || c == '_'

/-- `[a-zA-Z0-9_]`, a regex identifier character. -/
def isIdentChar (c : Char) : Bool := isIdentStart c || c.isDigit

/-- Python regex `\s`, restricted to its ASCII members (the templates and
messages at issue are ASCII). -/
def isPyWs (c : Char) : Bool :=
  c == ' ' || c == '\t' || c == '\n' || c == '\r' || c == '\x0b' || c == '\x0c'

theorem length_dropWhile_le (p : α → Bool) (l : List α) :
    (l.dropWhile p).length ≤ l.length :=
  (List.dropWhile_sublist p).length_le

/-- Consume the `(?:\.[a-zA-Z_][a-zA-Z0-9_]*)*` tail of the variable
pattern greedily, returning the unconsumed remainder.  Greedy matching is
exact here: whenever the full pattern fails after some iterations, no
shorter iteration count can succeed, because the remainder would then
start with `'.'`, which matches neither `\s` nor `\}`.  The `Nat`
argument is structural-recursion fuel; each iteration consumes at least
two characters, so any fuel above the input length is enough
(`matchDotsF_fuel`). -/
def matchDotsStep (go : List Char → List Char) (cs : List Char) :
    List Char :=
  match cs with
  | '.' :: c :: rest =>
    if isIdentStart c then go (rest.dropWhile isIdentChar)
    else cs
  | _ => cs

def matchDotsF : Nat → List Char → List Char
  | 0, cs => cs
  | fuel + 1, cs => matchDotsStep (matchDotsF fuel) cs

/-- `matchDotsF` with always-sufficient fuel. -/
def matchDots (cs : List Char) : List Char :=
  matchDotsF (cs.length + 1) cs

theorem matchDotsF_length_le (fuel : Nat) (cs : List Char) :
    (matchDotsF fuel cs).length ≤ cs.length := by
  induction fuel generalizing cs with
  | zero => simp [matchDotsF]
  | succ n ih =>
    rw [matchDotsF]
    unfold matchDotsStep
    split
    · next c rest =>
      split
      · have hh1 := ih (rest.dropWhile isIdentChar)
        have hh2 := length_dropWhile_le isIdentChar rest
        simp only [List.length_cons]
        omega
      · exact Nat.le_refl _
    · exact Nat.le_refl _

theorem matchDotsF_fuel (f1 : Nat) (cs : List Char) (f2 : Nat)
    (h1 : cs.length < f1) (h2 : cs.length < f2) :
    matchDotsF f1 cs = matchDotsF f2 cs := by
  induction f1 generalizing cs f2 with
  | zero => omega
  | succ n ih =>
    cases f2 with
    | zero => omega
    | succ m =>
      rw [matchDotsF, matchDotsF]
      unfold matchDotsStep
      split
      · next c rest =>
        split
        · apply ih
          · have := length_dropWhile_le isIdentChar rest
            simp only [List.length_cons] at h1
            omega
          · have := length_dropWhile_le isIdentChar rest
            simp only [List.length_cons] at h2
            omega
        · rfl
      · rfl

theorem matchDots_length_le (cs : List Char) :
    (matchDots cs).length ≤ cs.length :=
  matchDotsF_length_le (cs.length + 1) cs

/-- Attempt the regex
`\{\{\s*([a-zA-Z_][a-zA-Z0-9_]*(?:\.[a-zA-Z_][a-zA-Z0-9_]*)*)\s*\}\}`
immediately after an opening `{{`, returning the leading identifier
(`var_expr.split(".")[0]`, i.e. the base variable name) and the remainder
after the closing `}}`.  The greedy scan is equivalent to the regex: no
character class here overlaps its successor, so backtracking never finds
a match the greedy scan misses. -/
def tryMatchVar (cs : List Char) : Option (String × List Char) :=
  match cs.dropWhile isPyWs with
  | [] => none
  | c :: rest =>
    if isIdentStart c then
      match (matchDots (rest.dropWhile isIdentChar)).dropWhile isPyWs with
      | '}' :: '}' :: rest' =>
        some (String.mk (c :: rest.takeWhile isIdentChar), rest')
      | _ => none
    else none

theorem tryMatchVar_length_le {cs : List Char} {v : String}
    {rest' : List Char} (h : tryMatchVar cs = some (v, rest')) :
    rest'.length ≤ cs.length := by
  unfold tryMatchVar at h
  have h1 := length_dropWhile_le isPyWs cs
  split at h
  · exact absurd h (by simp)
  · next c rest heq =>
    split at h
    · split at h
      · next rest'' heq2 =>
        have h2 := length_dropWhile_le isIdentChar rest
        have h3 := matchDots_length_le (rest.dropWhile isIdentChar)
        have h4 :=
          length_dropWhile_le isPyWs (matchDots (rest.dropWhile isIdentChar))
        have h5 : rest.length + 1 = (cs.dropWhile isPyWs).length := by
          rw [heq]; simp
        rw [heq2] at h4
        simp only [List.length_cons] at h4
        injection h with h'
        injection h' with hv hr
        subst hr
        omega
      · exact absurd h (by simp)
    · exact absurd h (by simp)

/-- `re.finditer` of the variable pattern over the template text: try the
pattern at every occurrence of `{{` from left to right, non-overlapping,
collecting the base variable name of each match (in match order, with
repeats).  The `Nat` argument is structural-recursion fuel; every step
consumes at least one character, so any fuel above the input length is
enough (`scanVarsF_fuel`). -/
def scanVarsStep (go : List Char → List String) (cs : List Char) :
    List String :=
  match cs with
  | [] => []
  | '{' :: '{' :: rest =>
    match tryMatchVar rest with
    | some (v, rest') => v :: go rest'
    | none => go ('{' :: rest)
  | _ :: rest => go rest

def scanVarsF : Nat → List Char → List String
  | 0, _ => []
  | fuel + 1, cs => scanVarsStep (scanVarsF fuel) cs

/-- `scanVarsF` with always-sufficient fuel. -/
def scanVars (cs : List Char) : List String :=
  scanVarsF (cs.length + 1) cs

theorem scanVarsF_fuel (f1 : Nat) (cs : List Char) (f2 : Nat)
    (h1 : cs.length < f1) (h2 : cs.length < f2) :
    scanVarsF f1 cs = scanVarsF f2 cs := by
  induction f1 generalizing cs f2 with
  | zero => omega
  | succ n ih =>
    cases f2 with
    | zero => omega
    | succ m =>
      rw [scanVarsF, scanVarsF]
      unfold scanVarsStep
      split
      · rfl
      · next rest =>
        cases htm : tryMatchVar rest with
        | some vr =>
          obtain ⟨v, rest'⟩ := vr
          have hlen := tryMatchVar_length_le htm
          simp only [List.length_cons] at h1 h2
          show v :: scanVarsF n rest' = v :: scanVarsF m rest'
          rw [ih rest' m (by omega) (by omega)]
        | none =>
          simp only [List.length_cons] at h1 h2
          show scanVarsF n ('{' :: rest) = scanVarsF m ('{' :: rest)
          exact ih ('{' :: rest) m
            (by simp only [List.length_cons]; omega)
            (by simp only [List.length_cons]; omega)
      · simp only [List.length_cons] at h1 h2
        exact ih _ m (by omega) (by omega)

/-- The wrapper `scanVars` satisfies the intended recursion of the
left-to-right, non-overlapping scan (so the fuel in `scanVarsF` is never
exhausted). -/
theorem scanVars_eq (cs : List Char) :
    scanVars cs =
      match cs with
      | [] => []
      | '{' :: '{' :: rest =>
        match tryMatchVar rest with
        | some (v, rest') => v :: scanVars rest'
        | none => scanVars ('{' :: rest)
      | _ :: rest => scanVars rest := by
  unfold scanVars
  rw [show scanVarsF (cs.length + 1) cs = scanVarsF (cs.length + 2) cs from
    scanVarsF_fuel _ _ _ (by omega) (by omega)]
  rw [scanVarsF]
  unfold scanVarsStep
  split
  · rfl
  · next rest =>
    cases htm : tryMatchVar rest with
    | some vr =>
      obtain ⟨v, rest'⟩ := vr
      have hlen := tryMatchVar_length_le htm
      show v :: scanVarsF _ rest' = v :: scanVarsF _ rest'
      congr 1
      simp only [List.length_cons]
      exact scanVarsF_fuel _ _ _ (by omega) (by omega)
    | none =>
      show scanVarsF _ ('{' :: rest) = scanVarsF _ ('{' :: rest)
      exact scanVarsF_fuel _ _ _
        (by simp only [List.length_cons]; omega)
        (by simp only [List.length_cons]; omega)
  · exact scanVarsF_fuel _ _ _
      (by simp only [List.length_cons]; omega) (by omega)


/-- `PromptValidator._extract_template_variables`: the set of base names
of all `{{ identifier(.identifier)* }}` matches. -/
def extract_template_variables (template : String) : List String :=
  (scanVars template.toList).dedup

/-- The `valid_types` set literal of `validator.py`, in its source
order.  (Python iterates this `set` in an unspecified order when joining
it into the invalid-type message; this embedding fixes the literal's
order.) -/
def validTypesList : List String :=
  ["string", "int", "float", "bool", "list", "dict", "any"]

/-- The "required but has a default value" message. -/
def requiredDefaultMsg (n : String) : String :=
  "Variable '" ++ n ++ "' is required but has a default value"

/-- The "invalid type" message. -/
def invalidTypeMsg (n t : String) : String :=
  "Variable '" ++ n ++ "' has invalid type '" ++ t ++ "'. Valid types: " ++
    commaJoin validTypesList

/-- The "uses undefined variables" message, over the already
sorted-and-joined name list. -/
def undefinedVarsMsg (joined : String) : String :=
  "Template uses undefined variables: " ++ joined

/-- Code-point lexicographic `≤` on character lists, Python's string
comparison order. -/
def lexLe : List Char → List Char → Bool
  | [], _ => true
  | _ :: _, [] => false
  | a :: as, b :: bs =>
    if a.toNat < b.toNat then true
    else if b.toNat < a.toNat then false
    else lexLe as bs

/-- Python string `≤`. -/
def pyStrLe (a b : String) : Bool := lexLe a.toList b.toList

/-- Stable insertion of one string into a sorted list. -/
def insertSorted (x : String) : List String → List String
  | [] => [x]
  | y :: ys => if pyStrLe x y then x :: y :: ys else y :: insertSorted x ys

/-- Python `sorted` on strings: a stable sort by code-point
lexicographic order. -/
def sortedStrings (xs : List String) : List String :=
  xs.foldr insertSorted []

/-- `PromptValidator.validate`.  `self.jinja_env.parse` is an
external-library boundary, abstracted as `parseOracle` (`some e` models a
`TemplateError` with message `e`, `none` a successful parse); everything
else is translated directly, with the checks collected in source order. -/
def validate (parseOracle : String → Option String) (p : Prompt) :
    List String :=
  let metaErrs : List String :=
    if p.metadata.name == "" then ["Prompt metadata must have a 'name' field"]
    else []
  let syntaxErrs : List String :=
    match parseOracle p.template with
    | some e => ["Template syntax error: " ++ e]
    | none => []
  let template_vars := extract_template_variables p.template
  let defined_vars := p.vars.map Prod.fst
  let undefined_vars := template_vars.filter (fun v => !defined_vars.contains v)
  let undefErrs : List String :=
    if !undefined_vars.isEmpty then
      [undefinedVarsMsg (commaJoin (sortedStrings undefined_vars))]
    else []
  let varErrs : List String :=
    p.vars.flatMap (fun nv =>
      (if nv.2.required && !(nv.2.default == PyVal.vNone) then
        [requiredDefaultMsg nv.1]
      else []) ++
      (if !validTypesList.contains nv.2.type then
        [invalidTypeMsg nv.1 nv.2.type]
      else []))
  metaErrs ++ syntaxErrs ++ undefErrs ++ varErrs

/-! ### Differ (`differ.py` `compare_metadata`) -/

/-- Python `set(a) != set(b)` is false exactly when the two lists have
the same members. -/
def listSetEq (a b : List String) : Bool :=
  a.all (b.contains ·) && b.all (a.contains ·)

/-- The result dictionary of `PromptDiffer.compare_metadata`.  The
`variables_changed` values carry `Option` definitions, mirroring the
source's `... if var in prompt.variables else None`. -/
structure MetadataComparison : Type where
  name_changed : Bool
  version_changed : Bool
  description_changed : Bool
  author_changed : Bool
  tags_changed : Bool
  variables_added : List String
  variables_removed : List String
  variables_changed :
    List (String × (Option VariableDefinition × Option VariableDefinition))
  deriving Repr, DecidableEq

/-- `PromptDiffer.compare_metadata`.  Python iterates the comprehension
sets in an unspecified order; the embedding enumerates them in first-dict
insertion order, which fixes an order without changing membership. -/
def compare_metadata (p1 p2 : Prompt) : MetadataComparison :=
  let keys1 := p1.vars.map Prod.fst
  let keys2 := p2.vars.map Prod.fst
  { name_changed := p1.metadata.name != p2.metadata.name
    version_changed := p1.metadata.version != p2.metadata.version
    description_changed := p1.metadata.description != p2.metadata.description
    author_changed := p1.metadata.author != p2.metadata.author
    tags_changed := !listSetEq p1.metadata.tags p2.metadata.tags
    variables_added := (keys2.filter (fun k => !keys1.contains k)).dedup
    variables_removed := (keys1.filter (fun k => !keys2.contains k)).dedup
    variables_changed :=
      (((keys1.filter (fun k => keys2.contains k)).dedup).filter
          (fun k => p1.vars.lookup k != p2.vars.lookup k)).map
        (fun k =>
          (k, (if keys1.contains k then p1.vars.lookup k else none,
               if keys2.contains k then p2.vars.lookup k else none))) }

/-! ### Helper lemmas -/

theorem lookup_cons_pair {β : Type} (k k' : String) (v : β)
    (tl : List (String × β)) :
    (((k, v) :: tl).lookup k') = if k' = k then some v else tl.lookup k' := by
  by_cases h : k' = k
  · subst h; simp [List.lookup_cons]
  · simp [List.lookup_cons, beq_false_of_ne h, h]

theorem dictHasKey_eq_isSome (d : List (String × PyVal)) (k : String) :
    dictHasKey d k = (d.lookup k).isSome := by
  induction d with
  | nil => rfl
  | cons a tl ih =>
    obtain ⟨a1, a2⟩ := a
    rw [show dictHasKey ((a1, a2) :: tl) k = ((a1 == k) || dictHasKey tl k)
      from rfl]
    rw [lookup_cons_pair]
    by_cases h : k = a1
    · subst h; simp
    · rw [if_neg h, beq_false_of_ne (fun he => h he.symm), Bool.false_or]
      exact ih

theorem lookup_map_replace (d : List (String × PyVal)) (k : String)
    (v : PyVal) (k' : String) :
    (d.map (fun kv => if kv.1 == k then (k, v) else kv)).lookup k' =
      if k' = k then (if dictHasKey d k then some v else none)
      else d.lookup k' := by
  induction d with
  | nil => by_cases h : k' = k <;> simp [dictHasKey, h]
  | cons a tl ih =>
    obtain ⟨a1, a2⟩ := a
    simp only [List.map_cons]
    by_cases ha : a1 = k
    · subst ha
      rw [show (if (((a1, a2).1 == a1) = true) then (a1, v) else (a1, a2)) =
          (a1, v) by simp]
      rw [lookup_cons_pair, lookup_cons_pair]
      have hdk : dictHasKey ((a1, a2) :: tl) a1 = true := by
        simp [dictHasKey]
      by_cases h : k' = a1
      · subst h; simp [hdk]
      · rw [if_neg h, if_neg h, if_neg h, ih, if_neg h]
    · rw [show (if (((a1, a2).1 == k) = true) then (k, v) else (a1, a2)) =
          (a1, a2) by simp [beq_false_of_ne ha]]
      rw [lookup_cons_pair, lookup_cons_pair]
      have hdk : dictHasKey ((a1, a2) :: tl) k = dictHasKey tl k := by
        simp [dictHasKey, beq_false_of_ne ha]
      rw [hdk, ih]
      by_cases h : k' = a1
      · subst h
        rw [if_pos rfl, if_pos rfl, if_neg ha]
      · rw [if_neg h, if_neg h]

theorem lookup_dictSet (d : List (String × PyVal)) (k : String) (v : PyVal)
    (k' : String) :
    (dictSet d k v).lookup k' = if k' = k then some v else d.lookup k' := by
  unfold dictSet
  by_cases hk : dictHasKey d k = true
  · rw [if_pos hk, lookup_map_replace, hk]
    simp
  · have hk' : dictHasKey d k = false := by simpa using hk
    rw [if_neg hk, List.lookup_append]
    have hnone : d.lookup k = none := by
      have h2 := dictHasKey_eq_isSome d k
      rw [hk'] at h2
      cases hl : d.lookup k with
      | none => rfl
      | some w => rw [hl] at h2; simp at h2
    rw [lookup_cons_pair]
    by_cases h : k' = k
    · subst h
      rw [hnone]
      simp
    · rw [if_neg h, if_neg h]
      cases d.lookup k' <;> simp

theorem lookup_dictUpdate (d vs : List (String × PyVal)) (k : String) :
    (dictUpdate d vs).lookup k = (vs.reverse.lookup k).or (d.lookup k) := by
  induction vs generalizing d with
  | nil => simp [dictUpdate]
  | cons a tl ih =>
    obtain ⟨a1, a2⟩ := a
    show (dictUpdate (dictSet d a1 a2) tl).lookup k = _
    rw [ih, List.reverse_cons, List.lookup_append, lookup_dictSet,
      lookup_cons_pair]
    by_cases h : k = a1
    · rw [if_pos h, if_pos h]
      cases tl.reverse.lookup k <;> simp
    · rw [if_neg h, if_neg h]
      cases tl.reverse.lookup k <;> simp

theorem exceptBind_ok {ε α β : Type} (a : α) (g : α → Except ε β) :
    ((Except.ok a : Except ε α) >>= g) = g a := rfl

theorem exceptBind_err {ε α β : Type} (e : ε) (g : α → Except ε β) :
    ((Except.error e : Except ε α) >>= g) = Except.error e := rfl

theorem exceptPure {ε α : Type} (a : α) :
    (pure a : Except ε α) = Except.ok a := rfl

theorem listContainsSub_nil_needle [BEq α] (hay : List α) :
    listContainsSub hay [] = true := by
  cases hay <;> simp [listContainsSub, List.isPrefixOf]

theorem listContainsSub_infix [BEq α] [LawfulBEq α] (a b c : List α) :
    listContainsSub (a ++ b ++ c) b = true := by
  induction a with
  | nil =>
    simp only [List.nil_append]
    cases b with
    | nil => exact listContainsSub_nil_needle c
    | cons x tl =>
      have hpre : (x :: tl).isPrefixOf ((x :: tl) ++ c) = true := by
        clear * -
        induction tl generalizing x c with
        | nil => simp [List.isPrefixOf]
        | cons y tl2 ih => simp [List.isPrefixOf, List.cons_append, ih]
      simp [listContainsSub, hpre]
  | cons x tl ih =>
    simp only [List.cons_append, listContainsSub, Bool.or_eq_true]
    right
    exact ih

theorem containsSub_infix (a b c : String) :
    containsSub (a ++ b ++ c) b = true := by
  unfold containsSub
  have h : (a ++ b ++ c).toList = a.toList ++ b.toList ++ c.toList := by
    show (a ++ b ++ c).data = a.data ++ b.data ++ c.data
    rw [String.data_append, String.data_append]
  rw [h]
  exact listContainsSub_infix a.toList b.toList c.toList

/-! ### C1 — renderer merge, required-variable check, evaluation -/

/-- C1: for every Prompt and caller-supplied variable mapping, `render`
builds the merged set as the variable defaults overlaid by the caller's
variables (caller values win on key collision — the merged lookup prefers
the caller's binding); when some required name is absent from the merged
set it fails with `TemplateRenderError` listing all missing names
comma-joined, without attempting template evaluation (the result is the
same for every template evaluator); otherwise it evaluates the template
against exactly the merged set. -/
theorem render_merges_defaults_and_enforces_required
    (evalT : List (String × PyVal) → Except GluePromptError String)
    (p : Prompt) (supplied : List (String × PyVal)) :
    (∀ k, (dictUpdate p.get_variable_defaults supplied).lookup k =
        ((supplied.reverse.lookup k).or (p.get_variable_defaults.lookup k)))
    ∧ (if (p.get_required_variables.filter (fun v =>
          ((dictUpdate p.get_variable_defaults supplied).lookup v).isNone)).isEmpty
       then
         render evalT p supplied =
           evalT (dictUpdate p.get_variable_defaults supplied)
       else
         ∀ evalT',
           render evalT' p supplied =
             Except.error (GluePromptError.templateRender
               ("Missing required variables: " ++
                 commaJoin (p.get_required_variables.filter (fun v =>
                   ((dictUpdate p.get_variable_defaults supplied).lookup
                       v).isNone)))))
    := by
  constructor
  · intro k
    exact lookup_dictUpdate _ _ _
  · have hfilter :
        p.get_required_variables.filter (fun v =>
            !dictHasKey (dictUpdate p.get_variable_defaults supplied) v) =
          p.get_required_variables.filter (fun v =>
            ((dictUpdate p.get_variable_defaults supplied).lookup v).isNone) := by
      apply List.filter_congr
      intro v _
      rw [dictHasKey_eq_isSome]
      cases (dictUpdate p.get_variable_defaults supplied).lookup v <;> simp
    split
    · next hmiss =>
      simp only [render]
      rw [hfilter, hmiss]
      simp
    · next hmiss =>
      intro evalT'
      have hm' :
          (p.get_required_variables.filter (fun v =>
              ((dictUpdate p.get_variable_defaults supplied).lookup
                  v).isNone)).isEmpty = false := by
        simpa using hmiss
      simp only [render]
      rw [hfilter, hm']
      simp

/-! ### C2 — loader path-resolution order -/

/-- C2: for every logical prompt path, `_resolve_prompt_file` tries
`{root}/{p}.yaml`, then `{root}/{p}.yml`, then `{root}/{p}/index.yaml`,
in order, taking the first that exists (returning it once the traversal
guard passes); and when none of the three exists it fails with
`PromptNotFoundError` whose message contains all three attempted
paths. -/
theorem loader_resolution_order (ex : String → Bool)
    (ro : String → Except String String) (root p : String) :
    ((ex (joinPath root (p ++ ".yaml")) = true →
      validatePromptPath ro root (joinPath root (p ++ ".yaml")) =
          Except.ok () →
      resolvePromptFile ex ro root p =
        Except.ok (joinPath root (p ++ ".yaml"))) ∧
    (ex (joinPath root (p ++ ".yaml")) = false →
      ex (joinPath root (p ++ ".yml")) = true →
      validatePromptPath ro root (joinPath root (p ++ ".yml")) =
          Except.ok () →
      resolvePromptFile ex ro root p =
        Except.ok (joinPath root (p ++ ".yml"))) ∧
    (ex (joinPath root (p ++ ".yaml")) = false →
      ex (joinPath root (p ++ ".yml")) = false →
      ex (joinPath (joinPath root p) "index.yaml") = true →
      validatePromptPath ro root (joinPath (joinPath root p) "index.yaml") =
          Except.ok () →
      resolvePromptFile ex ro root p =
        Except.ok (joinPath (joinPath root p) "index.yaml")) ∧
    (ex (joinPath root (p ++ ".yaml")) = false →
      ex (joinPath root (p ++ ".yml")) = false →
      ex (joinPath (joinPath root p) "index.yaml") = false →
      resolvePromptFile ex ro root p =
        Except.error (GluePromptError.promptNotFound
          ("Prompt not found: " ++ p ++ ". Tried: " ++
            joinPath root (p ++ ".yaml") ++ ", " ++
            joinPath root (p ++ ".yml") ++ ", " ++
            joinPath (joinPath root p) "index.yaml")) ∧
      (∀ attempted,
        attempted = joinPath root (p ++ ".yaml") ∨
        attempted = joinPath root (p ++ ".yml") ∨
        attempted = joinPath (joinPath root p) "index.yaml" →
        containsSub
          ("Prompt not found: " ++ p ++ ". Tried: " ++
            joinPath root (p ++ ".yaml") ++ ", " ++
            joinPath root (p ++ ".yml") ++ ", " ++
            joinPath (joinPath root p) "index.yaml")
          attempted = true) ∧
      (∀ (rp : String → Except GluePromptError Prompt) (ce : Bool)
        (ttl : Nat) (st : LoaderState) (use_cache : Bool) (now : Nat),
        st.cache.lookup (getCacheKey ⟨root, ce, ttl⟩ p) = none →
        load ⟨ex, ro, rp⟩ ⟨root, ce, ttl⟩ st p use_cache now =
          Except.error (GluePromptError.promptNotFound
            ("Prompt not found: " ++ p ++ ". Tried: " ++
              joinPath root (p ++ ".yaml") ++ ", " ++
              joinPath root (p ++ ".yml") ++ ", " ++
              joinPath (joinPath root p) "index.yaml"))))) := by
  have hresnone : ex (joinPath root (p ++ ".yaml")) = false →
      ex (joinPath root (p ++ ".yml")) = false →
      ex (joinPath (joinPath root p) "index.yaml") = false →
      resolvePromptFile ex ro root p =
        Except.error (GluePromptError.promptNotFound
          ("Prompt not found: " ++ p ++ ". Tried: " ++
            joinPath root (p ++ ".yaml") ++ ", " ++
            joinPath root (p ++ ".yml") ++ ", " ++
            joinPath (joinPath root p) "index.yaml")) := by
    intro h1 h2 h3
    simp only [resolvePromptFile]
    rw [h1, h2, h3]
    simp
  refine ⟨?_, ?_, ?_, ?_⟩
  · intro h1 hv
    simp only [resolvePromptFile]
    rw [h1]
    simp [hv]
  · intro h1 h2 hv
    simp only [resolvePromptFile]
    rw [h1, h2]
    simp [hv]
  · intro h1 h2 h3 hv
    simp only [resolvePromptFile]
    rw [h1, h2, h3]
    simp [hv]
  · intro h1 h2 h3
    refine ⟨hresnone h1 h2 h3, ?_, ?_⟩
    case refine_2 =>
      intro rp ce ttl st use_cache now hkey
      cases hb : (use_cache && ce) with
      | true =>
        simp only [load, hb, if_true, hkey, loadFromFile,
          hresnone h1 h2 h3]
        rfl
      | false =>
        simp only [load, hb, Bool.false_eq_true, if_false, loadFromFile,
          hresnone h1 h2 h3]
        rfl
    intro attempted hcase
    rcases hcase with h | h | h <;> subst h
    · have hshape :
          "Prompt not found: " ++ p ++ ". Tried: " ++
            joinPath root (p ++ ".yaml") ++ ", " ++
            joinPath root (p ++ ".yml") ++ ", " ++
            joinPath (joinPath root p) "index.yaml" =
          ("Prompt not found: " ++ p ++ ". Tried: ") ++
            joinPath root (p ++ ".yaml") ++
            (", " ++ joinPath root (p ++ ".yml") ++ ", " ++
              joinPath (joinPath root p) "index.yaml") := by
        simp [String.append_assoc]
      rw [hshape]
      exact containsSub_infix _ _ _
    · have hshape :
          "Prompt not found: " ++ p ++ ". Tried: " ++
            joinPath root (p ++ ".yaml") ++ ", " ++
            joinPath root (p ++ ".yml") ++ ", " ++
            joinPath (joinPath root p) "index.yaml" =
          ("Prompt not found: " ++ p ++ ". Tried: " ++
              joinPath root (p ++ ".yaml") ++ ", ") ++
            joinPath root (p ++ ".yml") ++
            (", " ++ joinPath (joinPath root p) "index.yaml") := by
        simp [String.append_assoc]
      rw [hshape]
      exact containsSub_infix _ _ _
    · have hshape :
          "Prompt not found: " ++ p ++ ". Tried: " ++
            joinPath root (p ++ ".yaml") ++ ", " ++
            joinPath root (p ++ ".yml") ++ ", " ++
            joinPath (joinPath root p) "index.yaml" =
          ("Prompt not found: " ++ p ++ ". Tried: " ++
              joinPath root (p ++ ".yaml") ++ ", " ++
              joinPath root (p ++ ".yml") ++ ", ") ++
            joinPath (joinPath root p) "index.yaml" ++ "" := by
        simp [String.append_assoc]
      rw [hshape]
      exact containsSub_infix _ _ _

/-- Witness for C2: concrete filesystems exercising the `.yaml`-first
rule and the all-missing failure. -/
theorem loader_resolution_order_witness :
    resolvePromptFile (fun s => s == "root/a.yaml" || s == "root/a.yml")
        (fun s => Except.ok s) "root" "a" = Except.ok "root/a.yaml" ∧
    resolvePromptFile (fun _ => false) (fun s => Except.ok s) "root" "a" =
      Except.error (GluePromptError.promptNotFound
        ("Prompt not found: " ++ "a" ++ ". Tried: " ++
          joinPath "root" ("a" ++ ".yaml") ++ ", " ++
          joinPath "root" ("a" ++ ".yml") ++ ", " ++
          joinPath (joinPath "root" "a") "index.yaml")) := by
  constructor
  · exact (loader_resolution_order
      (fun s => s == "root/a.yaml" || s == "root/a.yml")
      (fun s => Except.ok s) "root" "a").1 (by decide) rfl
  · exact ((loader_resolution_order (fun _ => false)
      (fun s => Except.ok s) "root" "a").2.2.2 rfl rfl rfl).1

/-! ### C3 — CLI semantic-version bump -/

/-- Counterexample to C3 as stated: the claim predicts that any input not
parsing into three dot-separated integers is treated as `"1.0.0"`, so
`bump("a.b.c", "patch")` would be `"1.0.1"`; in the code the three-way
split succeeds and `int("a")` raises `ValueError` instead. -/
theorem bump_version_counterexample :
    bump_version "a.b.c" "patch" ≠ some "1.0.1" ∧
    bump_version "a.b.c" "patch" = none := by
  constructor
  · decide
  · decide

/-- C3 (amended): only an input that does not split into exactly three
dot-separated components is treated as `"1.0.0"` before bumping; an input
with exactly three components requires each to parse as an integer (else
the bump fails); on three integer components the selected component is
incremented and all lower-order components zeroed, `patch` being the
behaviour of any other bump string; and the three `"1.2.3"` examples
hold. -/
theorem bump_version_amended (v t a b c : String) (ma mi pa : Int) :
    (((pySplit v '.').length ≠ 3 → bump_version v t = bump_version "1.0.0" t) ∧
    (pySplit v '.' = [a, b, c] → pyInt? a = some ma → pyInt? b = some mi →
      pyInt? c = some pa →
      bump_version v t =
        some (if t = "major" then toString (ma + 1) ++ ".0.0"
          else if t = "minor" then
            toString ma ++ "." ++ toString (mi + 1) ++ ".0"
          else toString ma ++ "." ++ toString mi ++ "." ++
            toString (pa + 1))) ∧
    (pySplit v '.' = [a, b, c] →
      pyInt? a = none ∨ pyInt? b = none ∨ pyInt? c = none →
      bump_version v t = none)) ∧
    bump_version "1.2.3" "patch" = some "1.2.4" ∧
    bump_version "1.2.3" "minor" = some "1.3.0" ∧
    bump_version "1.2.3" "major" = some "2.0.0" := by
  refine ⟨⟨?_, ?_, ?_⟩, by decide, by decide, by decide⟩
  · intro hlen
    have h1 : ((pySplit v '.').length != 3) = true := by
      simpa using hlen
    have h2 : ((pySplit "1.0.0" '.').length != 3) = false := by decide
    simp only [bump_version, h1, h2, if_true, Bool.false_eq_true, if_false]
    rfl
  · intro hsplit ha hb hc
    simp only [bump_version, hsplit]
    rw [show (([a, b, c] : List String).length != 3) = false by simp]
    simp only [Bool.false_eq_true, if_false, ha, hb, hc]
    by_cases ht : t = "major"
    · subst ht; simp
    · by_cases ht2 : t = "minor"
      · subst ht2; simp
      · rw [if_neg ht, if_neg ht2,
          show (t == "major") = false from beq_false_of_ne ht,
          show (t == "minor") = false from beq_false_of_ne ht2]
        simp
  · intro hsplit hnone
    simp only [bump_version, hsplit]
    rw [show (([a, b, c] : List String).length != 3) = false by simp]
    simp only [Bool.false_eq_true, if_false]
    rcases hnone with h | h | h <;>
      cases hA : pyInt? a <;> cases hB : pyInt? b <;> cases hC : pyInt? c <;>
        simp_all

/-- Witness for C3 (amended): concrete inputs hitting the
malformed-split default, the integer path, and the `ValueError` path. -/
theorem bump_version_amended_witness :
    bump_version "banana" "minor" = bump_version "1.0.0" "minor" ∧
    bump_version "1.2.3" "patch" =
      some (toString (1 : Int) ++ "." ++ toString (2 : Int) ++ "." ++
        toString ((3 : Int) + 1)) ∧
    bump_version "a.b.c" "major" = none := by
  refine ⟨?_, ?_, ?_⟩
  · exact ((bump_version_amended "banana" "minor" "" "" "" 0 0 0).1).1
      (by decide)
  · have h := (((bump_version_amended "1.2.3" "patch" "1" "2" "3"
      1 2 3).1).2).1 (by decide) (by decide) (by decide) (by decide)
    rw [h]
    decide
  · exact (((bump_version_amended "a.b.c" "major" "a" "b" "c"
      0 0 0).1).2).2 (by decide) (Or.inl (by decide))

/-! ### C4 — URL-to-repository-name derivation -/

/-- C4: the claim (and the function's own docstring intent) says a
trailing `.git` suffix is stripped before taking the last path segment;
the code's `rstrip(".git")` instead strips trailing characters from the
set `{'.', 'g', 'i', 't'}`, so a repository URL ending in `mygit` is
reduced to `my`. -/
theorem url_to_repo_name_strips_charset_not_suffix :
    url_to_repo_name "https://github.com/user/mygit" = "my" ∧
    url_to_repo_name "https://github.com/user/mygit" ≠ "mygit" ∧
    url_to_repo_name "https://github.com/user/my-prompts.git" =
      "my-prompts" := by
  refine ⟨by decide, by decide, by decide⟩

/-! ### C5 — path-traversal guard -/

/-- C5: a resolved candidate that is not a descendant of the canonical
root fails with `PromptValidationError` ("path escapes prompts
directory"); a failure of canonical resolution itself fails with
`PromptValidationError` carrying the underlying error text; the resolver
propagates the validation error of the first existing candidate; and
`load` (on a cache miss) propagates any such `PromptValidationError`, so
it never returns a Prompt for such a path. -/
theorem path_traversal_rejected
    (fs : FsOracle) (cfg : LoaderCfg) (st : LoaderState) (p : String)
    (use_cache : Bool) (now : Nat)
    (hkey : st.cache.lookup (getCacheKey cfg p) = none) :
    (∀ cand rroot rfile,
        fs.resolveO cfg.prompts_dir = Except.ok rroot →
        fs.resolveO cand = Except.ok rfile →
        isRelativeTo rfile rroot = false →
        validatePromptPath fs.resolveO cfg.prompts_dir cand =
          Except.error (GluePromptError.promptValidation
            "Invalid prompt path: path escapes prompts directory")) ∧
    (∀ cand rroot e,
        fs.resolveO cfg.prompts_dir = Except.ok rroot →
        fs.resolveO cand = Except.error e →
        validatePromptPath fs.resolveO cfg.prompts_dir cand =
          Except.error (GluePromptError.promptValidation
            ("Invalid prompt path: " ++ e))) ∧
    (∀ err cand,
        ((fs.pathExists (joinPath cfg.prompts_dir (p ++ ".yaml")) = true ∧
            cand = joinPath cfg.prompts_dir (p ++ ".yaml")) ∨
          (fs.pathExists (joinPath cfg.prompts_dir (p ++ ".yaml")) = false ∧
            fs.pathExists (joinPath cfg.prompts_dir (p ++ ".yml")) = true ∧
            cand = joinPath cfg.prompts_dir (p ++ ".yml")) ∨
          (fs.pathExists (joinPath cfg.prompts_dir (p ++ ".yaml")) = false ∧
            fs.pathExists (joinPath cfg.prompts_dir (p ++ ".yml")) = false ∧
            fs.pathExists (joinPath (joinPath cfg.prompts_dir p)
              "index.yaml") = true ∧
            cand = joinPath (joinPath cfg.prompts_dir p) "index.yaml")) →
        validatePromptPath fs.resolveO cfg.prompts_dir cand =
          Except.error err →
        resolvePromptFile fs.pathExists fs.resolveO cfg.prompts_dir p =
          Except.error err) ∧
    (∀ msg,
        resolvePromptFile fs.pathExists fs.resolveO cfg.prompts_dir p =
          Except.error (GluePromptError.promptValidation msg) →
        load fs cfg st p use_cache now =
          Except.error (GluePromptError.promptValidation msg)) := by
  refine ⟨?_, ?_, ?_, ?_⟩
  · intro cand rroot rfile hroot hcand hrel
    simp only [validatePromptPath, hroot, hcand, hrel]
    simp
  · intro cand rroot e hroot hcand
    simp only [validatePromptPath, hroot, hcand]
  · intro err cand hcase hval
    rcases hcase with ⟨h1, hc⟩ | ⟨h1, h2, hc⟩ | ⟨h1, h2, h3, hc⟩ <;> subst hc
    · simp only [resolvePromptFile, h1, if_true, hval]
      rfl
    · simp only [resolvePromptFile, h1, h2, Bool.false_eq_true, if_false,
        if_true, hval]
      rfl
    · simp only [resolvePromptFile, h1, h2, h3, Bool.false_eq_true,
        if_false, if_true, hval]
      rfl
  · intro msg hres
    cases hb : (use_cache && cfg.cache_enabled) with
    | true =>
      simp only [load, hb, if_true, hkey, loadFromFile, hres]
      rfl
    | false =>
      simp only [load, hb, Bool.false_eq_true, if_false, loadFromFile, hres]
      rfl

/-- Witness for C5: a symlink-style oracle resolving the candidate
outside the root makes a concrete `load` fail with the traversal
error. -/
theorem path_traversal_rejected_witness :
    load
      ⟨fun s => s == "root/a.yaml",
        fun s => if s == "root" then Except.ok "/r/root"
          else Except.ok "/outside/a.yaml",
        fun _ => Except.ok ⟨⟨"n", "1.0.0", "", "", []⟩, "Hi", []⟩⟩
      ⟨"root", true, 300⟩ ⟨[], 0⟩ "a" true 0 =
      Except.error (GluePromptError.promptValidation
        "Invalid prompt path: path escapes prompts directory") := by
  apply (path_traversal_rejected
    ⟨fun s => s == "root/a.yaml",
      fun s => if s == "root" then Except.ok "/r/root"
        else Except.ok "/outside/a.yaml",
      fun _ => Except.ok ⟨⟨"n", "1.0.0", "", "", []⟩, "Hi", []⟩⟩
    ⟨"root", true, 300⟩ ⟨[], 0⟩ "a" true 0 rfl).2.2.2
  apply ((path_traversal_rejected
    ⟨fun s => s == "root/a.yaml",
      fun s => if s == "root" then Except.ok "/r/root"
        else Except.ok "/outside/a.yaml",
      fun _ => Except.ok ⟨⟨"n", "1.0.0", "", "", []⟩, "Hi", []⟩⟩
    ⟨"root", true, 300⟩ ⟨[], 0⟩ "a" true 0 rfl).2.2.1 _
    (joinPath "root" ("a" ++ ".yaml")) (Or.inl ⟨by decide, rfl⟩))
  exact (path_traversal_rejected
    ⟨fun s => s == "root/a.yaml",
      fun s => if s == "root" then Except.ok "/r/root"
        else Except.ok "/outside/a.yaml",
      fun _ => Except.ok ⟨⟨"n", "1.0.0", "", "", []⟩, "Hi", []⟩⟩
    ⟨"root", true, 300⟩ ⟨[], 0⟩ "a" true 0 rfl).1
    (joinPath "root" ("a" ++ ".yaml")) "/r/root" "/outside/a.yaml"
    rfl rfl (by decide)

/-! ### C6 — loader cache lifecycle -/

/-- C6: with caching enabled, a first `load` parses the file into a fresh
object and caches it under the extension-free key with the call's
timestamp; a second load within the TTL returns the very same object
(same identity, loader state untouched — no re-read); after
`clear_cache()` or TTL expiry a load re-reads, returning a distinct
object with equal field values and replacing the cache entry with a fresh
timestamp; and `use_cache = false` always re-reads but still replaces the
cache entry. -/
theorem loader_cache_lifecycle
    (fs : FsOracle) (cfg : LoaderCfg) (p f : String) (pv : Prompt)
    (t0 t1 t2 : Nat)
    (hen : cfg.cache_enabled = true)
    (hres : resolvePromptFile fs.pathExists fs.resolveO cfg.prompts_dir p =
      Except.ok f)
    (hread : fs.readParse f = Except.ok pv) :
    load fs cfg ⟨[], 0⟩ p true t0 =
      Except.ok (⟨0, pv⟩, ⟨[(getCacheKey cfg p, (⟨0, pv⟩, t0))], 1⟩) ∧
    (t1 - t0 < cfg.cache_ttl →
      load fs cfg ⟨[(getCacheKey cfg p, (⟨0, pv⟩, t0))], 1⟩ p true t1 =
        Except.ok (⟨0, pv⟩, ⟨[(getCacheKey cfg p, (⟨0, pv⟩, t0))], 1⟩)) ∧
    (load fs cfg (clearCache ⟨[(getCacheKey cfg p, (⟨0, pv⟩, t0))], 1⟩) p
        true t2 =
        Except.ok (⟨1, pv⟩, ⟨[(getCacheKey cfg p, (⟨1, pv⟩, t2))], 2⟩) ∧
      (⟨1, pv⟩ : PromptObj) ≠ ⟨0, pv⟩ ∧
      (⟨1, pv⟩ : PromptObj).val = (⟨0, pv⟩ : PromptObj).val) ∧
    (cfg.cache_ttl ≤ t1 - t0 →
      load fs cfg ⟨[(getCacheKey cfg p, (⟨0, pv⟩, t0))], 1⟩ p true t1 =
        Except.ok (⟨1, pv⟩, ⟨[(getCacheKey cfg p, (⟨1, pv⟩, t1))], 2⟩)) ∧
    load fs cfg ⟨[(getCacheKey cfg p, (⟨0, pv⟩, t0))], 1⟩ p false t1 =
      Except.ok (⟨1, pv⟩, ⟨[(getCacheKey cfg p, (⟨1, pv⟩, t1))], 2⟩) := by
  have halist : ∀ (o : PromptObj) (t : Nat) (o' : PromptObj) (t' : Nat),
      alistSet [(getCacheKey cfg p, (o, t))] (getCacheKey cfg p) (o', t') =
        [(getCacheKey cfg p, (o', t'))] := by
    intro o t o' t'
    simp [alistSet]
  have hempty : ∀ (o : PromptObj) (t : Nat),
      alistSet ([] : List (String × (PromptObj × Nat))) (getCacheKey cfg p)
          (o, t) = [(getCacheKey cfg p, (o, t))] := by
    intro o t
    simp [alistSet]
  refine ⟨?_, ?_, ⟨?_, by simp, rfl⟩, ?_, ?_⟩
  · simp only [load, hen, Bool.and_true, if_true, List.lookup_nil,
      loadFromFile, hres, exceptBind_ok, hread, exceptPure, hen, if_true,
      hempty]
  · intro hfresh
    simp only [load, hen, Bool.and_true, if_true, lookup_cons_pair,
      if_pos rfl]
    rw [if_pos ?hv]
    case hv =>
      simp [isCacheValid, hen, hfresh]
  · simp only [clearCache, load, hen, Bool.and_true, if_true,
      List.lookup_nil, loadFromFile, hres, exceptBind_ok, hread,
      exceptPure, hen, if_true, hempty]
  · intro hstale
    simp only [load, hen, Bool.and_true, if_true, lookup_cons_pair,
      if_pos rfl]
    rw [if_neg ?hv]
    case hv =>
      simp [isCacheValid, hen]
      omega
    simp only [loadFromFile, hres, exceptBind_ok, hread, exceptPure, hen,
      if_true, halist]
  · simp only [load, Bool.false_and, Bool.false_eq_true, if_false,
      loadFromFile, hres, exceptBind_ok, hread, exceptPure, hen, if_true,
      halist]

/-- Witness for C6: a one-file filesystem exercising the hit, the
post-clear re-read and the `use_cache = false` re-read. -/
theorem loader_cache_lifecycle_witness :
    (load
      ⟨fun s => s == "root/a.yaml", fun s => Except.ok s,
        fun _ => Except.ok ⟨⟨"n", "1.0.0", "", "", []⟩, "Hi", []⟩⟩
      ⟨"root", true, 300⟩ ⟨[], 0⟩ "a" true 10 =
      Except.ok (⟨0, ⟨⟨"n", "1.0.0", "", "", []⟩, "Hi", []⟩⟩,
        ⟨[(getCacheKey ⟨"root", true, 300⟩ "a",
          (⟨0, ⟨⟨"n", "1.0.0", "", "", []⟩, "Hi", []⟩⟩, 10))], 1⟩)) ∧
    (load
      ⟨fun s => s == "root/a.yaml", fun s => Except.ok s,
        fun _ => Except.ok ⟨⟨"n", "1.0.0", "", "", []⟩, "Hi", []⟩⟩
      ⟨"root", true, 300⟩
      ⟨[(getCacheKey ⟨"root", true, 300⟩ "a",
        (⟨0, ⟨⟨"n", "1.0.0", "", "", []⟩, "Hi", []⟩⟩, 10))], 1⟩ "a" true 20 =
      Except.ok (⟨0, ⟨⟨"n", "1.0.0", "", "", []⟩, "Hi", []⟩⟩,
        ⟨[(getCacheKey ⟨"root", true, 300⟩ "a",
          (⟨0, ⟨⟨"n", "1.0.0", "", "", []⟩, "Hi", []⟩⟩, 10))], 1⟩)) := by
  constructor
  · exact (loader_cache_lifecycle
      ⟨fun s => s == "root/a.yaml", fun s => Except.ok s,
        fun _ => Except.ok ⟨⟨"n", "1.0.0", "", "", []⟩, "Hi", []⟩⟩
      ⟨"root", true, 300⟩ "a" "root/a.yaml"
      ⟨⟨"n", "1.0.0", "", "", []⟩, "Hi", []⟩ 10 20 0 rfl rfl rfl).1
  · exact (loader_cache_lifecycle
      ⟨fun s => s == "root/a.yaml", fun s => Except.ok s,
        fun _ => Except.ok ⟨⟨"n", "1.0.0", "", "", []⟩, "Hi", []⟩⟩
      ⟨"root", true, 300⟩ "a" "root/a.yaml"
      ⟨⟨"n", "1.0.0", "", "", []⟩, "Hi", []⟩ 10 20 0 rfl rfl rfl).2.1
      (by decide)

/-! ### String-shape helper lemmas for message disjointness -/

theorem strApp_ne_of_take {A B : String} (x y : String) (n : Nat)
    (hna : n ≤ A.data.length) (hnb : n ≤ B.data.length)
    (hne : A.data.take n ≠ B.data.take n) : A ++ x ≠ B ++ y := by
  intro h
  have h2 := congrArg (fun s : String => s.data.take n) h
  simp only [String.data_append] at h2
  rw [List.take_append_of_le_length hna,
    List.take_append_of_le_length hnb] at h2
  exact hne h2

theorem strApp_ne_of_last {A B x y : String} (c d : Char)
    (hx : x.data.getLast? = some c) (hy : y.data.getLast? = some d)
    (hcd : c ≠ d) : A ++ x ≠ B ++ y := by
  intro h
  have h2 := congrArg (fun s : String => s.data.getLast?) h
  simp only [String.data_append, List.getLast?_append, hx, hy] at h2
  simp only [Option.or] at h2
  exact hcd (by injection h2)

theorem strApp_cancel_left {P x y : String} (h : P ++ x = P ++ y) :
    x = y := by
  apply String.ext
  have h2 := congrArg String.data h
  simp only [String.data_append] at h2
  exact List.append_cancel_left h2

theorem strApp_inj_mid {P S n n' : String}
    (h : P ++ n ++ S = P ++ n' ++ S) : n = n' := by
  apply String.ext
  have h2 := congrArg String.data h
  simp only [String.data_append] at h2
  exact List.append_cancel_left (List.append_cancel_right h2)

theorem containsSub_self_suffix (a b : String) :
    containsSub (a ++ b) b = true := by
  have h := containsSub_infix a b ""
  rwa [String.append_empty] at h

/-- The four validator message shapes are pairwise disjoint where the
claims need it. -/
theorem undef_ne_meta (j : String) :
    undefinedVarsMsg j ≠ "Prompt metadata must have a 'name' field" := by
  unfold undefinedVarsMsg
  rw [show "Prompt metadata must have a 'name' field" =
    "Prompt metadata must have a 'name' field" ++ "" from
    (String.append_empty _).symm]
  exact strApp_ne_of_take _ _ 1 (by decide) (by decide) (by decide)

theorem undef_ne_synMsg (j e : String) :
    undefinedVarsMsg j ≠ "Template syntax error: " ++ e := by
  unfold undefinedVarsMsg
  exact strApp_ne_of_take _ _ 10 (by decide) (by decide) (by decide)

theorem undef_ne_reqd (j n : String) :
    undefinedVarsMsg j ≠ requiredDefaultMsg n := by
  unfold undefinedVarsMsg requiredDefaultMsg
  rw [String.append_assoc]
  exact strApp_ne_of_take _ _ 1 (by decide) (by decide) (by decide)

theorem undef_ne_invalid (j n t : String) :
    undefinedVarsMsg j ≠ invalidTypeMsg n t := by
  unfold undefinedVarsMsg invalidTypeMsg
  rw [String.append_assoc, String.append_assoc, String.append_assoc,
    String.append_assoc]
  exact strApp_ne_of_take _ _ 1 (by decide) (by decide) (by decide)

theorem undef_inj {j j' : String}
    (h : undefinedVarsMsg j = undefinedVarsMsg j') : j = j' := by
  unfold undefinedVarsMsg at h
  exact strApp_cancel_left h

theorem reqd_ne_meta (n : String) :
    requiredDefaultMsg n ≠ "Prompt metadata must have a 'name' field" := by
  unfold requiredDefaultMsg
  rw [String.append_assoc,
    show "Prompt metadata must have a 'name' field" =
      "Prompt metadata must have a 'name' field" ++ "" from
      (String.append_empty _).symm]
  exact strApp_ne_of_take _ _ 1 (by decide) (by decide) (by decide)

theorem reqd_ne_synMsg (n e : String) :
    requiredDefaultMsg n ≠ "Template syntax error: " ++ e := by
  unfold requiredDefaultMsg
  rw [String.append_assoc]
  exact strApp_ne_of_take _ _ 1 (by decide) (by decide) (by decide)

theorem reqd_ne_invalid (n n' t : String) :
    requiredDefaultMsg n ≠ invalidTypeMsg n' t := by
  unfold requiredDefaultMsg invalidTypeMsg
  exact strApp_ne_of_last 'e' 'y' (by decide) (by decide) (by decide)

theorem reqd_inj {n n' : String}
    (h : requiredDefaultMsg n = requiredDefaultMsg n') : n = n' := by
  unfold requiredDefaultMsg at h
  exact strApp_inj_mid h

/-! ### C7 — validator undefined-variable detection -/

/-- The template-referenced names not declared in `variables`
(`undefined_vars` in `PromptValidator.validate`). -/
def undefinedVars (p : Prompt) : List String :=
  (extract_template_variables p.template).filter
    (fun v => !(p.vars.map Prod.fst).contains v)

/-- C7: the validator extracts the leading identifiers of top-level
`{{ identifier(.identifier)* }}` expressions
(`extract_template_variables`); when some referenced name is not a key of
`variables`, the error list contains exactly one "uses undefined
variables" message, listing exactly the undeclared names alphabetically
sorted and comma-joined; and no such message appears when every
referenced name is declared. -/
theorem validator_undefined_variable_detection
    (parseOracle : String → Option String) (p : Prompt) :
    ((validate parseOracle p).count
        (undefinedVarsMsg (commaJoin (sortedStrings (undefinedVars p)))) =
      if (undefinedVars p).isEmpty then 0 else 1) ∧
    ∀ j, undefinedVarsMsg j ∈ validate parseOracle p →
      undefinedVars p ≠ [] ∧
      j = commaJoin (sortedStrings (undefinedVars p)) := by
  constructor
  · simp only [undefinedVars, validate]
    rw [List.count_append, List.count_append, List.count_append]
    have c1 :
        (if p.metadata.name == "" then
            ["Prompt metadata must have a 'name' field"]
          else []).count (undefinedVarsMsg (commaJoin (sortedStrings
            ((extract_template_variables p.template).filter
              (fun v => !(p.vars.map Prod.fst).contains v))))) = 0 := by
      split <;>
        simp [List.count_eq_zero, undef_ne_meta]
    have c2 :
        (match parseOracle p.template with
          | some e => ["Template syntax error: " ++ e]
          | none => []).count (undefinedVarsMsg (commaJoin (sortedStrings
            ((extract_template_variables p.template).filter
              (fun v => !(p.vars.map Prod.fst).contains v))))) = 0 := by
      cases parseOracle p.template <;>
        simp [List.count_eq_zero, undef_ne_synMsg]
    have c4 :
        (p.vars.flatMap (fun nv =>
          (if nv.2.required && !(nv.2.default == PyVal.vNone) then
            [requiredDefaultMsg nv.1]
          else []) ++
          (if !validTypesList.contains nv.2.type then
            [invalidTypeMsg nv.1 nv.2.type]
          else []))).count
          (undefinedVarsMsg (commaJoin (sortedStrings
            ((extract_template_variables p.template).filter
              (fun v => !(p.vars.map Prod.fst).contains v))))) = 0 := by
      rw [List.count_eq_zero]
      intro hmem
      rw [List.mem_flatMap] at hmem
      obtain ⟨nv, _, hin⟩ := hmem
      rw [List.mem_append] at hin
      rcases hin with hin | hin
      · split at hin
        · simp only [List.mem_singleton] at hin
          exact absurd hin (undef_ne_reqd _ _)
        · simp at hin
      · split at hin
        · simp only [List.mem_singleton] at hin
          exact absurd hin (undef_ne_invalid _ _ _)
        · simp at hin
    rw [c1, c2, c4]
    by_cases hu :
        ((extract_template_variables p.template).filter
          (fun v => !(p.vars.map Prod.fst).contains v)).isEmpty = true
    · rw [if_pos hu]
      rw [show (!((extract_template_variables p.template).filter
          (fun v => !(p.vars.map Prod.fst).contains v)).isEmpty) = false by
        rw [hu]; rfl]
      simp
    · have hu' :
          ((extract_template_variables p.template).filter
            (fun v => !(p.vars.map Prod.fst).contains v)).isEmpty = false := by
        simpa using hu
      rw [if_neg hu]
      rw [show (!((extract_template_variables p.template).filter
          (fun v => !(p.vars.map Prod.fst).contains v)).isEmpty) = true by
        rw [hu']; rfl]
      simp [List.count_singleton]
  · intro j hmem
    simp only [undefinedVars]
    simp only [validate] at hmem
    rw [List.mem_append, List.mem_append, List.mem_append] at hmem
    rcases hmem with ((h | h) | h) | h
    · split at h
      · simp only [List.mem_singleton] at h
        exact absurd h (undef_ne_meta j)
      · simp at h
    · split at h
      · simp only [List.mem_singleton] at h
        exact absurd h (undef_ne_synMsg j _)
      · simp at h
    · split at h
      · next hcond =>
        simp only [List.mem_singleton] at h
        refine ⟨?_, undef_inj h⟩
        intro hnil
        rw [hnil] at hcond
        simp at hcond
      · simp at h
    · rw [List.mem_flatMap] at h
      obtain ⟨nv, _, hin⟩ := h
      rw [List.mem_append] at hin
      rcases hin with hin | hin
      · split at hin
        · simp only [List.mem_singleton] at hin
          exact absurd hin (undef_ne_reqd _ _)
        · simp at hin
      · split at hin
        · simp only [List.mem_singleton] at hin
          exact absurd hin (undef_ne_invalid _ _ _)
        · simp at hin

/-- Witness for C7: the template `"Hello {{ name }} and {{ age }}!"`
with no declared variables yields the single sorted message content
`"age, name"`. -/
theorem validator_undefined_variable_detection_witness :
    undefinedVars
      ⟨⟨"x", "1.0.0", "", "", []⟩, "Hello {{ name }} and {{ age }}!",
        []⟩ ≠ [] ∧
    "age, name" =
      commaJoin (sortedStrings (undefinedVars
        ⟨⟨"x", "1.0.0", "", "", []⟩, "Hello {{ name }} and {{ age }}!",
          []⟩)) := by
  exact (validator_undefined_variable_detection (fun _ => none)
    ⟨⟨"x", "1.0.0", "", "", []⟩, "Hello {{ name }} and {{ age }}!",
      []⟩).2 "age, name" (by decide)

/-! ### C8 — HTTP render-route status mapping -/

/-- C8: the render route returns 404 when the lower-cased failure message
contains "not found"; else 400 when it contains "missing required" or
"template"; else 500 with the underlying message embedded in the response
detail. -/
theorem render_route_status_mapping (msg : String) :
    (containsSub (pyLower msg) "not found" = true →
      mapRenderError msg = (404, msg)) ∧
    (containsSub (pyLower msg) "not found" = false →
      (containsSub (pyLower msg) "missing required" ||
        containsSub (pyLower msg) "template") = true →
      mapRenderError msg = (400, msg)) ∧
    (containsSub (pyLower msg) "not found" = false →
      (containsSub (pyLower msg) "missing required" ||
        containsSub (pyLower msg) "template") = false →
      mapRenderError msg = (500, "Internal server error: " ++ msg) ∧
      containsSub ("Internal server error: " ++ msg) msg = true) := by
  refine ⟨?_, ?_, ?_⟩
  · intro h1
    simp [mapRenderError, h1]
  · intro h1 h2
    simp only [mapRenderError, h1, Bool.false_eq_true, if_false]
    rw [show (containsSub (pyLower msg) "missing required" ||
      containsSub (pyLower msg) "template") = true from h2]
    simp
  · intro h1 h2
    refine ⟨?_, containsSub_self_suffix _ _⟩
    simp only [mapRenderError, h1, Bool.false_eq_true, if_false]
    rw [show (containsSub (pyLower msg) "missing required" ||
      containsSub (pyLower msg) "template") = false from h2]
    simp

/-- Witness for C8: the three canonical failure messages map to 404, 400
and 500 respectively. -/
theorem render_route_status_mapping_witness :
    mapRenderError "Prompt not found: X" = (404, "Prompt not found: X") ∧
    mapRenderError "Missing required variables: name" =
      (400, "Missing required variables: name") ∧
    mapRenderError "boom" =
      (500, "Internal server error: " ++ "boom") := by
  refine ⟨?_, ?_, ?_⟩
  · exact (render_route_status_mapping "Prompt not found: X").1 (by decide)
  · exact (render_route_status_mapping
      "Missing required variables: name").2.1 (by decide) (by decide)
  · exact ((render_route_status_mapping "boom").2.2 (by decide)
      (by decide)).1

/-! ### C9 — a `null` default is indistinguishable from no default -/

theorem lookup_eq_none_of_no_key {β : Type} (l : List (String × β))
    (k : String) (h : ∀ e ∈ l, e.1 ≠ k) : l.lookup k = none := by
  induction l with
  | nil => rfl
  | cons a tl ih =>
    obtain ⟨a1, a2⟩ := a
    rw [lookup_cons_pair, if_neg ?hk]
    case hk =>
      intro he
      exact h (a1, a2) (by simp) he.symm
    exact ih (fun e he => h e (List.mem_cons_of_mem _ he))

theorem lookup_isSome_of_mem_keys {β : Type} (l : List (String × β))
    (k : String) (h : k ∈ l.map Prod.fst) : (l.lookup k).isSome = true := by
  induction l with
  | nil => simp at h
  | cons a tl ih =>
    obtain ⟨a1, a2⟩ := a
    rw [lookup_cons_pair]
    by_cases hk : k = a1
    · rw [if_pos hk]; rfl
    · rw [if_neg hk]
      apply ih
      simp only [List.map_cons, List.mem_cons] at h
      rcases h with h | h
      · exact absurd h hk
      · exact h

/-- C9: a variable whose parsed `default` is `null` (`None`) behaves
everywhere as if it had no default: with `required = false` it is omitted
from `get_variable_defaults` and contributes nothing to the merged
render-time set; and with `required = true` the validator's "required but
has a default value" check does not fire for it. -/
theorem null_default_indistinguishable
    (parseOracle : String → Option String) (p : Prompt) (n : String)
    (vd : VariableDefinition) (hnodup : p.KeysNodup)
    (hmem : (n, vd) ∈ p.vars) (hdef : vd.default = PyVal.vNone) :
    (vd.required = false →
      p.get_variable_defaults.lookup n = none ∧
      ∀ supplied,
        (dictUpdate p.get_variable_defaults supplied).lookup n =
          supplied.reverse.lookup n) ∧
    (vd.required = true →
      requiredDefaultMsg n ∉ validate parseOracle p) := by
  have huniq : ∀ e ∈ p.vars, e.1 = n → e = (n, vd) := by
    intro e he h1
    exact List.inj_on_of_nodup_map hnodup he hmem h1
  constructor
  · intro _
    have hlnone : p.get_variable_defaults.lookup n = none := by
      apply lookup_eq_none_of_no_key
      intro e he
      simp only [Prompt.get_variable_defaults, List.mem_map] at he
      obtain ⟨nv, hnvmem, hnveq⟩ := he
      rw [List.mem_filter] at hnvmem
      intro hek
      have h1 : nv.1 = n := by rw [← hnveq] at hek; exact hek
      have h2 := huniq nv hnvmem.1 h1
      have h3 := hnvmem.2
      rw [h2] at h3
      simp [hdef] at h3
    refine ⟨hlnone, ?_⟩
    intro supplied
    rw [lookup_dictUpdate, hlnone, Option.or_none]
  · intro _ hmem2
    simp only [validate] at hmem2
    rw [List.mem_append, List.mem_append, List.mem_append] at hmem2
    rcases hmem2 with ((h | h) | h) | h
    · split at h
      · simp only [List.mem_singleton] at h
        exact absurd h (reqd_ne_meta n)
      · simp at h
    · split at h
      · simp only [List.mem_singleton] at h
        exact absurd h (reqd_ne_synMsg n _)
      · simp at h
    · split at h
      · simp only [List.mem_singleton] at h
        exact absurd h.symm (undef_ne_reqd _ _)
      · simp at h
    · rw [List.mem_flatMap] at h
      obtain ⟨nv, hnv, hin⟩ := h
      rw [List.mem_append] at hin
      rcases hin with hin | hin
      · split at hin
        · next hcond =>
          simp only [List.mem_singleton] at hin
          have hn := reqd_inj hin
          have h2 := huniq nv hnv hn.symm
          rw [h2] at hcond
          simp [hdef] at hcond
        · simp at hin
      · split at hin
        · simp only [List.mem_singleton] at hin
          exact absurd hin (reqd_ne_invalid _ _ _)
        · simp at hin

/-- Witness for C9: a concrete prompt with a `required` variable of
`null` default and an optional variable of `null` default. -/
theorem null_default_indistinguishable_witness :
    (Prompt.get_variable_defaults
      ⟨⟨"x", "1.0.0", "", "", []⟩, "t",
        [("a", ⟨"string", true, PyVal.vNone, ""⟩),
         ("b", ⟨"string", false, PyVal.vNone, ""⟩)]⟩).lookup "b" = none ∧
    requiredDefaultMsg "a" ∉
      validate (fun _ => none)
        ⟨⟨"x", "1.0.0", "", "", []⟩, "t",
          [("a", ⟨"string", true, PyVal.vNone, ""⟩),
           ("b", ⟨"string", false, PyVal.vNone, ""⟩)]⟩ := by
  constructor
  · exact ((null_default_indistinguishable (fun _ => none)
      ⟨⟨"x", "1.0.0", "", "", []⟩, "t",
        [("a", ⟨"string", true, PyVal.vNone, ""⟩),
         ("b", ⟨"string", false, PyVal.vNone, ""⟩)]⟩ "b"
      ⟨"string", false, PyVal.vNone, ""⟩ (by decide) (by decide) rfl).1
      rfl).1
  · exact (null_default_indistinguishable (fun _ => none)
      ⟨⟨"x", "1.0.0", "", "", []⟩, "t",
        [("a", ⟨"string", true, PyVal.vNone, ""⟩),
         ("b", ⟨"string", false, PyVal.vNone, ""⟩)]⟩ "a"
      ⟨"string", true, PyVal.vNone, ""⟩ (by decide) (by decide) rfl).2
      rfl

/-! ### C10 — differ `compare_metadata` soundness -/

/-- C10: every entry of `variables_changed` carries the two actual
definitions (both non-null — the `None` fallback is unreachable, since
the keys come from the key-set intersection), an entry exists only when
the two full definitions differ, and comparing a prompt with itself
yields all-false flags and empty added/removed/changed sets. -/
theorem compare_metadata_sound (p1 p2 : Prompt) :
    (∀ k old new,
        (k, (old, new)) ∈ (compare_metadata p1 p2).variables_changed →
        old = p1.vars.lookup k ∧ new = p2.vars.lookup k ∧
        old.isSome = true ∧ new.isSome = true ∧ old ≠ new) ∧
    compare_metadata p1 p1 =
      ⟨false, false, false, false, false, [], [], []⟩ := by
  constructor
  · intro k old new hmem
    simp only [compare_metadata] at hmem
    rw [List.mem_map] at hmem
    obtain ⟨k', hk', heq⟩ := hmem
    rw [Prod.mk.injEq] at heq
    obtain ⟨hkk, hpair⟩ := heq
    subst hkk
    rw [Prod.mk.injEq] at hpair
    obtain ⟨hold, hnew⟩ := hpair
    rw [List.mem_filter] at hk'
    obtain ⟨hk'mem, hk'ne⟩ := hk'
    rw [List.mem_dedup, List.mem_filter] at hk'mem
    obtain ⟨hkeys1, hkeys2⟩ := hk'mem
    have hc1 : (p1.vars.map Prod.fst).contains k' = true := by
      exact List.elem_iff.mpr hkeys1
    have hmem2 : k' ∈ p2.vars.map Prod.fst := List.elem_iff.mp hkeys2
    rw [hc1] at hold
    rw [if_pos rfl] at hold
    rw [hkeys2] at hnew
    rw [if_pos rfl] at hnew
    refine ⟨hold.symm, hnew.symm, ?_, ?_, ?_⟩
    · rw [← hold]
      exact lookup_isSome_of_mem_keys p1.vars k' hkeys1
    · rw [← hnew]
      exact lookup_isSome_of_mem_keys p2.vars k' hmem2
    · rw [← hold, ← hnew]
      exact bne_iff_ne.mp hk'ne
  · simp only [compare_metadata, MetadataComparison.mk.injEq]
    refine ⟨by simp, by simp, by simp, by simp, ?_, ?_, ?_, ?_⟩
    · simp [listSetEq, List.all_eq_true]
    · rw [List.filter_eq_nil_iff.mpr ?h1, List.dedup_nil]
      case h1 =>
        intro a ha
        have hc : (List.map Prod.fst p1.vars).contains a = true :=
          List.elem_iff.mpr ha
        rw [hc]
        simp
    · rw [List.filter_eq_nil_iff.mpr ?h2, List.dedup_nil]
      case h2 =>
        intro a ha
        have hc : (List.map Prod.fst p1.vars).contains a = true :=
          List.elem_iff.mpr ha
        rw [hc]
        simp
    · rw [List.filter_eq_nil_iff.mpr ?h3]
      · rfl
      case h3 =>
        intro a _
        simp

/-- Witness for C10: two one-variable prompts whose shared variable's
definition differs. -/
theorem compare_metadata_sound_witness :
    (some (⟨"string", true, PyVal.vNone, ""⟩ : VariableDefinition) =
      (Prompt.mk ⟨"x", "1.0.0", "", "", []⟩ "t"
        [("a", ⟨"string", true, PyVal.vNone, ""⟩)]).vars.lookup "a" ∧
    some (⟨"int", true, PyVal.vNone, ""⟩ : VariableDefinition) =
      (Prompt.mk ⟨"x", "1.0.0", "", "", []⟩ "t"
        [("a", ⟨"int", true, PyVal.vNone, ""⟩)]).vars.lookup "a" ∧
    (some (⟨"string", true, PyVal.vNone, ""⟩ : VariableDefinition)).isSome =
      true ∧
    (some (⟨"int", true, PyVal.vNone, ""⟩ : VariableDefinition)).isSome =
      true ∧
    some (⟨"string", true, PyVal.vNone, ""⟩ : VariableDefinition) ≠
      some (⟨"int", true, PyVal.vNone, ""⟩ : VariableDefinition)) := by
  exact (compare_metadata_sound
    (Prompt.mk ⟨"x", "1.0.0", "", "", []⟩ "t"
      [("a", ⟨"string", true, PyVal.vNone, ""⟩)])
    (Prompt.mk ⟨"x", "1.0.0", "", "", []⟩ "t"
      [("a", ⟨"int", true, PyVal.vNone, ""⟩)])).1 "a"
    (some ⟨"string", true, PyVal.vNone, ""⟩)
    (some ⟨"int", true, PyVal.vNone, ""⟩) (by decide)

end GluePrompt
